import Mathlib

/-!
Shallow embedding of the `bronx` repository (two modules):
  * `src/bronx/compat/itertools.py` — the `pairwise` backport;
  * `src/bronx/syntax/externalcode.py` — the `ExternalCodeImportChecker`
    class with its `is_available` query and `disabled_if_unavailable`
    decorator.

Python values stored in the metadata registry are modelled by the
inductive `PyVal` (strings and integers, the kinds exercised by the
documentation and the spec).  Python exceptions become an explicit
`PyError` sum returned through `Except`.  Dictionaries of keyword
arguments become association lists in insertion order (Python 3.7+
keeps keyword-argument insertion order).
-/

namespace Bronx

/-- A Python value as stored in the checker's metadata registry or
passed as a requirement (strings and integers suffice for the code's
documented uses).  Python `==` across different types yields `False`,
which `DecidableEq` on this sum reproduces. -/
inductive PyVal where
  | str (s : String)
  | int (n : Int)
deriving DecidableEq, Repr

/-- The Python exceptions raised by `externalcode.py`:
`RuntimeError` for usage errors, `TypeError` for old-style classes
(and ill-typed version comparisons), `ValueError` for a non-callable
positional decorator argument, and the module's own
`ExternalCodeUnavailableError`. -/
inductive PyError where
  | runtimeError (msg : String)
  | typeError (msg : String)
  | valueError (msg : String)
  | externalCodeUnavailableError (msg : String)
deriving DecidableEq, Repr

/-! ### The crude version parser

`externalcode.py` falls back (when neither `distutils` nor `packaging`
is importable) on

    def version_cb(version1):
        return tuple([int(x)
                      for x in re.sub(r'(\.0+)*$', '', version1).split(".")
                      if x.isdigit()])

We embed that fallback: strip every trailing group of a dot followed by
one or more `'0'` characters, split the remainder on `'.'`, and keep
the all-digit components as numbers.  Tuples of numbers compare
lexicographically, a strict prefix being smaller, exactly as Python
tuples of `int` do. -/

/-- One step of the trailing `(\.0+)` stripping, on the *reversed*
character list: drop a leading run of `'0'`s provided it is followed by
a `'.'` (which is dropped too); otherwise report no progress. -/
def dropZeroGroupRev (r : List Char) : Option (List Char) :=
  let zeros := r.takeWhile (fun c => c = '0')
  if zeros.isEmpty then none
  else
    match r.drop zeros.length with
    | '.' :: rest => some rest
    | _ => none

/-- Iterate `dropZeroGroupRev` to a fixpoint (fuel-bounded by the list
length, which strictly decreases at every successful step). -/
def stripRevAux : Nat → List Char → List Char
  | 0, r => r
  | fuel + 1, r =>
    match dropZeroGroupRev r with
    | some r' => stripRevAux fuel r'
    | none => r

/-- `re.sub(r'(\.0+)*$', '', s)`: remove the maximal trailing run of
dot-plus-zeros groups. -/
def stripTrailingZeroGroups (s : List Char) : List Char :=
  let r := s.reverse
  (stripRevAux r.length r).reverse

/-- Python's `s.split(".")`: split on every `'.'`, keeping empty
pieces.  `acc` accumulates the current piece in reverse. -/
def pySplitDot : List Char → List Char → List (List Char)
  | [], acc => [acc.reverse]
  | c :: rest, acc =>
    if c = '.' then acc.reverse :: pySplitDot rest []
    else pySplitDot rest (c :: acc)

/-- Python's `int(x) if x.isdigit() else skip`: a non-empty all-digit
piece parses to its decimal value. -/
def pyDigits (cs : List Char) : Option Nat :=
  if cs ≠ [] ∧ cs.all Char.isDigit then
    some (cs.foldl (fun n c => n * 10 + (c.toNat - 48)) 0)
  else none

/-- The crude `version_cb` of `externalcode.py`: strip trailing zero
groups, split on `'.'`, keep the numeric components. -/
def version_cb (version1 : String) : List Nat :=
  (pySplitDot (stripTrailingZeroGroups version1.data) []).filterMap pyDigits

/-- Python tuple comparison `a <= b` on tuples of numbers:
lexicographic, a strict prefix being smaller. -/
def tupleLe : List Nat → List Nat → Bool
  | [], _ => true
  | _ :: _, [] => false
  | a :: as_, b :: bs => a < b || (a = b && tupleLe as_ bs)

/-! ### The checker's state -/

/-- The state of an `ExternalCodeImportChecker` instance:
`nickname` names the external dependency, `_checked_out` is the
tri-state outcome (`none` = not yet attempted, `some true` =
succeeded, `some false` = failed), `_register` is the metadata
registry (an association list in insertion order). -/
structure ExternalCodeImportChecker where
  nickname : String
  _checked_out : Option Bool
  _register : List (String × PyVal)
deriving DecidableEq, Repr

/-- `ExternalCodeImportChecker.__init__`: fresh checker, no import
attempted, empty registry. -/
def ExternalCodeImportChecker.mkChecker (nickname : String) : ExternalCodeImportChecker :=
  { nickname := nickname, _checked_out := none, _register := [] }

/-- Python `dict` lookup on the registry association list (first
binding wins; `dict` keys are unique anyway). -/
def regLookup (reg : List (String × PyVal)) (key : String) : Option PyVal :=
  match reg.find? (fun kv => kv.1 = key) with
  | some kv => some kv.2
  | none => none

namespace ExternalCodeImportChecker

/-- `_version_check`: error if no `version` is registered; otherwise
compare `version_cb(registered) >= version_cb(minimal)`.  A
non-string operand makes Python's `version_cb` blow up on `re.sub`,
modelled as a `TypeError`. -/
def _version_check (self : ExternalCodeImportChecker) (minimal_version : PyVal) :
    Except PyError Bool :=
  match regLookup self._register "version" with
  | none =>
      .error (.runtimeError ("No version registered for the " ++ self.nickname ++ " package."))
  | some registered =>
      match registered, minimal_version with
      | .str rs, .str ms => .ok (tupleLe (version_cb ms) (version_cb rs))
      | _, _ => .error (.typeError "expected string or bytes-like object")

/-- `_item_check`: error if the key is not registered; otherwise test
equality of the registered value with the required one. -/
def _item_check (self : ExternalCodeImportChecker) (itemname : String) (value : PyVal) :
    Except PyError Bool :=
  match regLookup self._register itemname with
  | none =>
      .error (.runtimeError ("No " ++ itemname ++ " registered for the "
        ++ self.nickname ++ " package."))
  | some registered => .ok (registered = value)

/-- The per-requirement dispatch inside `_kwargs_check`'s loop:
keys `version` and `v` go to `_version_check`, all others to
`_item_check`. -/
def checkOne (self : ExternalCodeImportChecker) (k : String) (v : PyVal) :
    Except PyError Bool :=
  if k = "version" ∨ k = "v" then self._version_check v else self._item_check k v

/-- The loop body of `_kwargs_check`:
`accumulate = accumulate and check(...)`.  Python's `and`
short-circuits, so once `accumulate` is `False` no further check runs
(and no further error can be raised). -/
def kwargsLoop (self : ExternalCodeImportChecker) (accumulate : Bool) :
    List (String × PyVal) → Except PyError Bool
  | [] => .ok accumulate
  | (k, v) :: rest =>
    if accumulate then
      match self.checkOne k v with
      | .error e => .error e
      | .ok b => kwargsLoop self b rest
    else
      kwargsLoop self false rest

/-- `_kwargs_check`: fold the requirement checks with short-circuit
conjunction, starting from `True`. -/
def _kwargs_check (self : ExternalCodeImportChecker) (kwargs : List (String × PyVal)) :
    Except PyError Bool :=
  kwargsLoop self true kwargs

/-- `is_available`: usage error before any acquisition; `False`
immediately after a failed acquisition (`checked_out and ...`
short-circuits); otherwise the result of `_kwargs_check`. -/
def is_available (self : ExternalCodeImportChecker) (kwargs : List (String × PyVal)) :
    Except PyError Bool :=
  match self._checked_out with
  | none =>
      .error (.runtimeError ("No import was attempted yet for package "
        ++ self.nickname ++ "."))
  | some co =>
      if co then self._kwargs_check kwargs else .ok false

end ExternalCodeImportChecker

/-! ### The scoped-acquisition exit handler -/

/-- An exception arriving at `__exit__`: its class (is it a subclass of
`ImportError`?) and its message.  Logging in `__exit__` goes to an
external collaborator and has no effect on the checker's state, so it
is not modelled. -/
structure PyExc where
  isImportError : Bool
  msg : String
deriving DecidableEq, Repr

namespace ExternalCodeImportChecker

/-- `__enter__` returns the registry itself (the caller mutates it in
place; in the embedding the caller's updates are applied to
`_register` before `__exit__` runs). -/
def enter (self : ExternalCodeImportChecker) : List (String × PyVal) :=
  self._register

/-- `__exit__`: on a clean exit, outcome becomes succeeded; on an
`ImportError`, outcome becomes failed and `True` is returned (the
exception is suppressed); on any other exception the method falls off
the end (returns `None`, falsy: the exception propagates) and the
state is untouched.  The returned `Bool` is the truthiness of the
Python return value. -/
def exit (self : ExternalCodeImportChecker) (exc : Option PyExc) :
    ExternalCodeImportChecker × Bool :=
  match exc with
  | none => ({ self with _checked_out := some true }, false)
  | some e =>
      if e.isImportError then
        ({ self with _checked_out := some false }, true)
      else
        (self, false)

end ExternalCodeImportChecker

/-! ### The unavailability message -/

/-- Modelled from the spec: `join_list_in_proper_english` lives in
`bronx.fancies.display`, which is not part of the two source files; the
spec describes it only as rendering an ordered sequence of requirement
strings as a natural-language conjunction (e.g. "a, b and c").  The
exact rendering is irrelevant to every claim. -/
def join_list_in_proper_english : List String → String
  | [] => ""
  | [x] => x
  | [x, y] => x ++ " and " ++ y
  | x :: rest => x ++ ", " ++ join_list_in_proper_english rest

/-- Render one requirement as `k>=v` (version keys) or `k==v`. -/
def reqString (k : String) (v : PyVal) : String :=
  let vs := match v with
    | .str s => s
    | .int n => toString n
  if k = "version" ∨ k = "v" then k ++ ">=" ++ vs else k ++ "==" ++ vs

namespace ExternalCodeImportChecker

/-- `_format_exception_message`: the message of the
`ExternalCodeUnavailableError`, listing the sorted unmet
requirements. -/
def _format_exception_message (self : ExternalCodeImportChecker)
    (kwargs : List (String × PyVal)) : String :=
  match kwargs with
  | [] => "The " ++ self.nickname ++ " package is unavailable."
  | _ :: _ =>
      let requirements :=
        ((kwargs.mergeSort (fun a b => a.1 ≤ b.1)).map (fun kv => reqString kv.1 kv.2))
      "The " ++ self.nickname ++ " package is unavailable (with "
        ++ join_list_in_proper_english requirements ++ ")."

end ExternalCodeImportChecker

/-! ### Decoration targets

A Python function is modelled by its `__name__`, `__doc__` and its
behaviour (`call`); a (new-style) class by its class-level attributes,
whether it has a `__new__` hook, that hook's `__doc__`, and the
behaviour of instantiation (`new`).  `α` is the argument tuple type,
`β` the result type. -/

structure PyFunction (α β : Type) where
  name : String
  doc : Option String
  call : α → Except PyError β

structure PyClass (α β : Type) where
  attrs : List (String × PyVal)
  hasNew : Bool
  newDoc : Option String
  new : α → Except PyError β

/-- A decoration target: either a plain function or a class. -/
inductive PyTarget (α β : Type) where
  | function (f : PyFunction α β)
  | cls (c : PyClass α β)

namespace ExternalCodeImportChecker

/-- The inner `actual_disabled_if_unavailable(func_or_cls)` closure,
with the enclosing `available` flag and the precomputed error message.
For a function target and `available = False`, a fresh wrapper raises
on every call, keeping the original `__name__` and `__doc__`; for a
class target, `__new__` is replaced in place (attributes untouched);
old-style classes (no `__new__`) are rejected before the availability
test. -/
def actual_disabled_if_unavailable {α β : Type} (available : Bool) (excmsg : String) :
    PyTarget α β → Except PyError (PyTarget α β)
  | .function f =>
      if available then
        .ok (.function f)
      else
        .ok (.function
          { name := f.name, doc := f.doc
            call := fun _ => .error (.externalCodeUnavailableError excmsg) })
  | .cls c =>
      if ¬ c.hasNew then
        .error (.typeError "Old-Style classes are not supported by this module.")
      else if available then
        .ok (.cls c)
      else
        .ok (.cls
          { attrs := c.attrs, hasNew := c.hasNew, newDoc := c.newDoc
            new := fun _ => .error (.externalCodeUnavailableError excmsg) })

end ExternalCodeImportChecker

/-- The result of `disabled_if_unavailable`: either the decorated
target (bare-decorator form) or the actual decorator (factory form). -/
inductive DecoResult (α β : Type) where
  | applied (t : PyTarget α β)
  | factory (f : PyTarget α β → Except PyError (PyTarget α β))

namespace ExternalCodeImportChecker

/-- `disabled_if_unavailable(*kargs, **kwargs)`: with a positional
argument, it must be callable (else `ValueError`) and is decorated
directly; `is_available` is evaluated once (its usage errors
propagate); without a positional argument the actual decorator is
returned.  `karg = some (Sum.inl t)` is a callable positional
argument, `karg = some (Sum.inr v)` a non-callable one. -/
def disabled_if_unavailable {α β : Type} (self : ExternalCodeImportChecker)
    (karg : Option (Sum (PyTarget α β) PyVal)) (kwargs : List (String × PyVal)) :
    Except PyError (DecoResult α β) :=
  match karg with
  | some (Sum.inr _) => .error (.valueError "kargs needs to be a callable")
  | _ =>
    match self.is_available kwargs with
    | .error e => .error e
    | .ok available =>
      let excmsg := self._format_exception_message kwargs
      match karg with
      | some (Sum.inl t) =>
          match actual_disabled_if_unavailable available excmsg t with
          | .error e => .error e
          | .ok t' => .ok (.applied t')
      | _ => .ok (.factory (actual_disabled_if_unavailable available excmsg))

end ExternalCodeImportChecker

/-! ### The `pairwise` backport

`pairwise` tees the iterable, advances the second copy once and zips:
on a finite sequence this is `zip S (tail S)`. -/

/-- `pairwise(iterable)`: successive overlapping pairs.  `zip` stops at
the shorter operand, and `next(b, None)` drops the first element of the
second tee. -/
def pairwise {α : Type} (l : List α) : List (α × α) :=
  l.zip l.tail

/-! ### Helper notions and lemmas -/

/-- The key that `checkOne k v` looks up in the registry: `version`
keys (and the alias `v`) consult the `version` entry, any other key
consults itself.  `missingKey self k` says that entry is absent. -/
def missingKey (self : ExternalCodeImportChecker) (k : String) : Prop :=
  regLookup self._register (if k = "version" ∨ k = "v" then "version" else k) = none

instance (self : ExternalCodeImportChecker) (k : String) :
    Decidable (missingKey self k) := by
  unfold missingKey; infer_instance

/-- A target the decorator accepts without a `TypeError`: any function,
or a class with a `__new__` hook. -/
def targetNewStyle {α β : Type} : PyTarget α β → Prop
  | .function _ => True
  | .cls c => c.hasNew = true

/-- Once `accumulate` is `False`, the remaining loop performs no check
and returns `False`. -/
theorem kwargsLoop_false (self : ExternalCodeImportChecker) :
    ∀ kwargs : List (String × PyVal), self.kwargsLoop false kwargs = .ok false := by
  intro kwargs
  induction kwargs with
  | nil => rfl
  | cons kv rest ih => simpa [ExternalCodeImportChecker.kwargsLoop] using ih

/-- A prefix of requirements that all check out true leaves the loop in
the `accumulate = True` state. -/
theorem kwargsLoop_append_true (self : ExternalCodeImportChecker)
    (pre rest : List (String × PyVal))
    (hpre : ∀ kv ∈ pre, self.checkOne kv.1 kv.2 = .ok true) :
    self.kwargsLoop true (pre ++ rest) = self.kwargsLoop true rest := by
  induction pre with
  | nil => rfl
  | cons kv pre' ih =>
      have hk : self.checkOne kv.1 kv.2 = .ok true := hpre kv (by simp)
      have ih' := ih (fun kv' h' => hpre kv' (by simp [h']))
      simp [ExternalCodeImportChecker.kwargsLoop, hk, ih']

/-- Checking a requirement whose consulted registry entry is absent
raises a `RuntimeError`. -/
theorem checkOne_missing (self : ExternalCodeImportChecker) (k : String) (v : PyVal)
    (hm : missingKey self k) :
    ∃ msg, self.checkOne k v = .error (.runtimeError msg) := by
  unfold missingKey at hm
  unfold ExternalCodeImportChecker.checkOne
  by_cases hk : k = "version" ∨ k = "v"
  · simp only [hk, if_pos] at hm ⊢
    refine ⟨"No version registered for the " ++ self.nickname ++ " package.", ?_⟩
    simp [ExternalCodeImportChecker._version_check, hm]
  · simp only [hk, if_neg, if_false] at hm ⊢
    refine ⟨"No " ++ k ++ " registered for the " ++ self.nickname ++ " package.", ?_⟩
    simp [ExternalCodeImportChecker._item_check, hm]

end Bronx

open Bronx

/-! ### The claims -/

/-- Claim C6: on a checker whose scoped acquisition block has not
completed (`_checked_out` still `None`), every `is_available` call, for
any requirements set, raises a `RuntimeError` rather than returning a
boolean. -/
theorem C6_unattempted_is_available_raises
    (self : ExternalCodeImportChecker) (kwargs : List (String × PyVal))
    (h : self._checked_out = none) :
    self.is_available kwargs =
      .error (.runtimeError ("No import was attempted yet for package "
        ++ self.nickname ++ ".")) := by
  simp [ExternalCodeImportChecker.is_available, h]

/-- Witness for C6 at a freshly constructed checker. -/
theorem C6_unattempted_is_available_raises_witness :
    (ExternalCodeImportChecker.mkChecker "pkg").is_available [("feature", PyVal.int 1)] =
      .error (.runtimeError ("No import was attempted yet for package "
        ++ (ExternalCodeImportChecker.mkChecker "pkg").nickname ++ ".")) :=
  C6_unattempted_is_available_raises (ExternalCodeImportChecker.mkChecker "pkg")
    [("feature", PyVal.int 1)] rfl

/-- Claim C7: on a checker whose outcome is failed
(`_checked_out = some false`), `is_available` returns `False` for every
requirements set, without raising — `checked_out and _kwargs_check(...)`
short-circuits before any per-key check. -/
theorem C7_failed_is_available_false
    (self : ExternalCodeImportChecker) (kwargs : List (String × PyVal))
    (h : self._checked_out = some false) :
    self.is_available kwargs = .ok false := by
  simp [ExternalCodeImportChecker.is_available, h]

/-- Witness for C7 at a failed checker queried with a never-registered
key. -/
theorem C7_failed_is_available_false_witness :
    ExternalCodeImportChecker.is_available
      (⟨"external", some false, []⟩ : ExternalCodeImportChecker)
      [("feature", PyVal.int 1)] = .ok false :=
  C7_failed_is_available_false ⟨"external", some false, []⟩ [("feature", PyVal.int 1)] rfl

/-- Claim C2: when the scoped acquisition block exits with an
exception, `__exit__` suppresses it (returns a truthy value) exactly
when it is an import-class error; in that case the outcome becomes
failed, while a non-import exception leaves the checker untouched and
propagates (falsy return). -/
theorem C2_exit_suppresses_exactly_import_errors
    (self : ExternalCodeImportChecker) (e : PyExc) :
    ((self.exit (some e)).2 = true ↔ e.isImportError = true) ∧
    (e.isImportError = true → ((self.exit (some e)).1)._checked_out = some false) ∧
    (e.isImportError = false → self.exit (some e) = (self, false)) := by
  cases he : e.isImportError <;>
    simp [ExternalCodeImportChecker.exit, he]

/-- Witness for C2: an `ImportError` is suppressed and records failure;
a non-import error is not suppressed. -/
theorem C2_exit_suppresses_exactly_import_errors_witness :
    ((ExternalCodeImportChecker.mkChecker "pkg").exit (some ⟨true, "boom"⟩)).2 = true ∧
    (((ExternalCodeImportChecker.mkChecker "pkg").exit
        (some ⟨true, "boom"⟩)).1)._checked_out = some false ∧
    (ExternalCodeImportChecker.mkChecker "pkg").exit (some ⟨false, "boom"⟩) =
      (ExternalCodeImportChecker.mkChecker "pkg", false) :=
  ⟨(C2_exit_suppresses_exactly_import_errors (ExternalCodeImportChecker.mkChecker "pkg")
      ⟨true, "boom"⟩).1.mpr rfl,
   (C2_exit_suppresses_exactly_import_errors (ExternalCodeImportChecker.mkChecker "pkg")
      ⟨true, "boom"⟩).2.1 rfl,
   (C2_exit_suppresses_exactly_import_errors (ExternalCodeImportChecker.mkChecker "pkg")
      ⟨false, "boom"⟩).2.2 rfl⟩

/-- Claim C10: a non-import exception leaves the exit handler without
any state change — the outcome stays not-yet-attempted and the registry
is untouched — so a subsequent `is_available` call still raises the
pre-acquisition usage error. -/
theorem C10_nonimport_exit_leaves_state_unchanged
    (self : ExternalCodeImportChecker) (e : PyExc) (kwargs : List (String × PyVal))
    (hpre : self._checked_out = none) (he : e.isImportError = false) :
    self.exit (some e) = (self, false) ∧
    ((self.exit (some e)).1).is_available kwargs =
      .error (.runtimeError ("No import was attempted yet for package "
        ++ self.nickname ++ ".")) := by
  constructor
  · simp [ExternalCodeImportChecker.exit, he]
  · simp [ExternalCodeImportChecker.exit, he, ExternalCodeImportChecker.is_available, hpre]

/-- Witness for C10 at a fresh checker and a non-import exception. -/
theorem C10_nonimport_exit_leaves_state_unchanged_witness :
    (ExternalCodeImportChecker.mkChecker "pkg").exit (some ⟨false, "boom"⟩) =
      (ExternalCodeImportChecker.mkChecker "pkg", false) ∧
    (((ExternalCodeImportChecker.mkChecker "pkg").exit (some ⟨false, "boom"⟩)).1).is_available [] =
      .error (.runtimeError ("No import was attempted yet for package "
        ++ (ExternalCodeImportChecker.mkChecker "pkg").nickname ++ ".")) :=
  C10_nonimport_exit_leaves_state_unchanged (ExternalCodeImportChecker.mkChecker "pkg")
    ⟨false, "boom"⟩ [] rfl rfl

/-- Claim C1 (counterexample): a checker that succeeded with registry
`{feature: 2}` and the requirements `feature=1, version="1.0.0"` has
a missing `version` key, yet `is_available` returns `False` instead of
raising: the failed `feature` check turns `accumulate` to `False` and
Python's short-circuit `and` never reaches the `version` lookup. -/
theorem C1_missing_key_after_failed_requirement_returns_false :
    (ExternalCodeImportChecker._checked_out
      ⟨"external", some true, [("feature", PyVal.int 2)]⟩ = some true) ∧
    (regLookup (ExternalCodeImportChecker._register
      ⟨"external", some true, [("feature", PyVal.int 2)]⟩) "version" = none) ∧
    (ExternalCodeImportChecker.is_available
      ⟨"external", some true, [("feature", PyVal.int 2)]⟩
      [("feature", PyVal.int 1), ("version", PyVal.str "1.0.0")] = .ok false) := by
  exact ⟨rfl, rfl, rfl⟩

/-- Claim C1 (amended): on a checker whose acquisition succeeded, a
requirements list containing a key whose consulted registry entry is
absent makes `is_available` raise a `RuntimeError` — provided every
requirement placed before that key checks out true (the checks are
folded with short-circuit conjunction, so an earlier unsatisfied
requirement instead makes the call return `False` without reaching the
missing key). -/
theorem C1_missing_key_raises
    (self : ExternalCodeImportChecker) (pre post : List (String × PyVal))
    (k : String) (v : PyVal)
    (hs : self._checked_out = some true)
    (hm : missingKey self k)
    (hpre : ∀ kv ∈ pre, self.checkOne kv.1 kv.2 = .ok true) :
    ∃ msg, self.is_available (pre ++ (k, v) :: post) = .error (.runtimeError msg) := by
  obtain ⟨msg, hmsg⟩ := checkOne_missing self k v hm
  refine ⟨msg, ?_⟩
  simp only [ExternalCodeImportChecker.is_available, hs, if_true,
    ExternalCodeImportChecker._kwargs_check]
  rw [kwargsLoop_append_true self pre _ hpre]
  simp [ExternalCodeImportChecker.kwargsLoop, hmsg]

/-- Witness for the amended C1: a succeeded checker with empty registry
and the single requirement `feature=1` raises. -/
theorem C1_missing_key_raises_witness :
    ∃ msg, ExternalCodeImportChecker.is_available
      (⟨"external", some true, []⟩ : ExternalCodeImportChecker)
      ([] ++ ("feature", PyVal.int 1) :: []) = .error (.runtimeError msg) :=
  C1_missing_key_raises ⟨"external", some true, []⟩ [] [] "feature" (PyVal.int 1)
    rfl (by decide) (by simp)

/-- Claim C3: with outcome succeeded and `version = "2.0.0"`
registered, `is_available(version="1.0.0")` is true and
`is_available(version="3.0.0")` is false; in general a `version` (or
`v`) requirement evaluates to exactly the version-ordering comparison
`version_cb(registered) >= version_cb(required)`. -/
theorem C3_version_requirement_is_ge_comparison :
    (ExternalCodeImportChecker.is_available
        (⟨"external", some true, [("version", PyVal.str "2.0.0")]⟩ : ExternalCodeImportChecker)
        [("version", PyVal.str "1.0.0")] = .ok true ∧
     ExternalCodeImportChecker.is_available
        (⟨"external", some true, [("version", PyVal.str "2.0.0")]⟩ : ExternalCodeImportChecker)
        [("version", PyVal.str "3.0.0")] = .ok false) ∧
    (∀ (self : ExternalCodeImportChecker) (rv mv k : String),
      self._checked_out = some true →
      regLookup self._register "version" = some (.str rv) →
      (k = "version" ∨ k = "v") →
      self.is_available [(k, PyVal.str mv)] =
        .ok (tupleLe (version_cb mv) (version_cb rv))) := by
  constructor
  · exact ⟨rfl, rfl⟩
  · intro self rv mv k hs hreg hk
    have h1 : self.checkOne k (.str mv) = .ok (tupleLe (version_cb mv) (version_cb rv)) := by
      unfold ExternalCodeImportChecker.checkOne
      rw [if_pos hk]
      unfold ExternalCodeImportChecker._version_check
      rw [hreg]
    simp [ExternalCodeImportChecker.is_available, hs,
      ExternalCodeImportChecker._kwargs_check, ExternalCodeImportChecker.kwargsLoop, h1]

/-- Witness for C3's general part, at the alias key `v`. -/
theorem C3_version_requirement_is_ge_comparison_witness :
    ExternalCodeImportChecker.is_available
      (⟨"external", some true, [("version", PyVal.str "2.0.0")]⟩ : ExternalCodeImportChecker)
      [("v", PyVal.str "2.0.0")] = .ok (tupleLe (version_cb "2.0.0") (version_cb "2.0.0")) :=
  C3_version_requirement_is_ge_comparison.2
    ⟨"external", some true, [("version", PyVal.str "2.0.0")]⟩
    "2.0.0" "2.0.0" "v" rfl rfl (Or.inr rfl)

/-- Claim C4: decorating a plain function while the availability check
for the given requirements is false yields a wrapper that raises the
`ExternalCodeUnavailableError` on every invocation and keeps the
original `__name__` and `__doc__`. -/
theorem C4_disabled_function_raises_on_every_call
    {α β : Type} (self : ExternalCodeImportChecker)
    (kwargs : List (String × PyVal)) (f : PyFunction α β)
    (h : self.is_available kwargs = .ok false) :
    ∃ f' : PyFunction α β,
      self.disabled_if_unavailable (some (Sum.inl (.function f))) kwargs =
        .ok (.applied (.function f')) ∧
      f'.name = f.name ∧ f'.doc = f.doc ∧
      ∀ a, f'.call a =
        .error (.externalCodeUnavailableError (self._format_exception_message kwargs)) := by
  refine ⟨{ name := f.name, doc := f.doc,
            call := fun _ =>
              .error (.externalCodeUnavailableError (self._format_exception_message kwargs)) },
          ?_, rfl, rfl, fun a => rfl⟩
  simp [ExternalCodeImportChecker.disabled_if_unavailable, h,
    ExternalCodeImportChecker.actual_disabled_if_unavailable]

/-- Witness for C4 at a failed checker and a concrete function. -/
theorem C4_disabled_function_raises_on_every_call_witness :
    ∃ f' : PyFunction Nat Nat,
      ExternalCodeImportChecker.disabled_if_unavailable
        (⟨"external", some false, []⟩ : ExternalCodeImportChecker)
        (some (Sum.inl (.function ⟨"myfun", some "mydoc", fun _ => .ok 0⟩))) [] =
        .ok (.applied (.function f')) ∧
      f'.name = "myfun" ∧ f'.doc = some "mydoc" ∧
      ∀ a, f'.call a =
        .error (.externalCodeUnavailableError
          (ExternalCodeImportChecker._format_exception_message
            ⟨"external", some false, []⟩ [])) :=
  C4_disabled_function_raises_on_every_call
    ⟨"external", some false, []⟩ [] ⟨"myfun", some "mydoc", fun _ => .ok 0⟩ rfl

/-- Claim C8: decorating a class while the availability check is false
replaces instantiation with a raise of the
`ExternalCodeUnavailableError`, while the class-level attributes are
untouched (reading one yields the original value). -/
theorem C8_disabled_class_raises_on_instantiation
    {α β : Type} (self : ExternalCodeImportChecker)
    (kwargs : List (String × PyVal)) (c : PyClass α β)
    (h : self.is_available kwargs = .ok false) (hn : c.hasNew = true) :
    ∃ c' : PyClass α β,
      self.disabled_if_unavailable (some (Sum.inl (.cls c))) kwargs =
        .ok (.applied (.cls c')) ∧
      c'.attrs = c.attrs ∧
      ∀ a, c'.new a =
        .error (.externalCodeUnavailableError (self._format_exception_message kwargs)) := by
  refine ⟨{ attrs := c.attrs, hasNew := c.hasNew, newDoc := c.newDoc,
            new := fun _ =>
              .error (.externalCodeUnavailableError (self._format_exception_message kwargs)) },
          ?_, rfl, fun a => rfl⟩
  simp [ExternalCodeImportChecker.disabled_if_unavailable, h,
    ExternalCodeImportChecker.actual_disabled_if_unavailable, hn]

/-- Witness for C8 at a failed checker and a class with one attribute. -/
theorem C8_disabled_class_raises_on_instantiation_witness :
    ∃ c' : PyClass Nat Nat,
      ExternalCodeImportChecker.disabled_if_unavailable
        (⟨"external", some false, []⟩ : ExternalCodeImportChecker)
        (some (Sum.inl (.cls ⟨[("kind", PyVal.str "demo")], true, none, fun _ => .ok 0⟩))) [] =
        .ok (.applied (.cls c')) ∧
      c'.attrs = [("kind", PyVal.str "demo")] ∧
      ∀ a, c'.new a =
        .error (.externalCodeUnavailableError
          (ExternalCodeImportChecker._format_exception_message
            ⟨"external", some false, []⟩ [])) :=
  C8_disabled_class_raises_on_instantiation
    ⟨"external", some false, []⟩ [] ⟨[("kind", PyVal.str "demo")], true, none, fun _ => .ok 0⟩
    rfl rfl

/-- Claim C9: when the availability check for the given requirements is
true, the decorator is an identity passthrough in both calling
conventions: the bare form returns the very target, and the factory
form returns a decorator that does. -/
theorem C9_available_identity_passthrough
    {α β : Type} (self : ExternalCodeImportChecker)
    (kwargs : List (String × PyVal)) (t : PyTarget α β)
    (h : self.is_available kwargs = .ok true) (ht : targetNewStyle t) :
    self.disabled_if_unavailable (some (Sum.inl t)) kwargs = .ok (.applied t) ∧
    ∀ g, self.disabled_if_unavailable
        (none : Option (Sum (PyTarget α β) PyVal)) kwargs = .ok (.factory g) →
      g t = .ok t := by
  have hact : ExternalCodeImportChecker.actual_disabled_if_unavailable true
      (self._format_exception_message kwargs) t = .ok t := by
    cases t with
    | function f => rfl
    | cls c =>
        simp only [targetNewStyle] at ht
        simp [ExternalCodeImportChecker.actual_disabled_if_unavailable, ht]
  constructor
  · simp [ExternalCodeImportChecker.disabled_if_unavailable, h, hact]
  · intro g hg
    simp only [ExternalCodeImportChecker.disabled_if_unavailable, h] at hg
    injection hg with hg'
    injection hg' with hg''
    rw [← hg'']
    exact hact

/-- Witness for C9 at a succeeded checker and a concrete function
target, through the bare-decorator form. -/
theorem C9_available_identity_passthrough_witness :
    ExternalCodeImportChecker.disabled_if_unavailable
      (⟨"external", some true, []⟩ : ExternalCodeImportChecker)
      (some (Sum.inl (PyTarget.function ⟨"f", none, fun (_ : Nat) => Except.ok (0 : Nat)⟩))) [] =
      .ok (.applied (PyTarget.function ⟨"f", none, fun (_ : Nat) => Except.ok (0 : Nat)⟩)) :=
  (C9_available_identity_passthrough ⟨"external", some true, []⟩ []
    (PyTarget.function ⟨"f", none, fun _ => Except.ok 0⟩) rfl trivial).1

/-- Claim C5: `pairwise` on a finite sequence yields exactly
`length - 1` pairs, the `i`-th pair being the consecutive elements at
positions `i` and `i + 1`; a sequence of at most one element yields no
pairs. -/
theorem C5_pairwise_consecutive_pairs {α : Type} (l : List α) :
    ((pairwise l).length = l.length - 1) ∧
    (∀ (i : Nat) (h1 : i < (pairwise l).length) (h2 : i < l.length)
        (h3 : i + 1 < l.length),
      (pairwise l).get ⟨i, h1⟩ = (l.get ⟨i, h2⟩, l.get ⟨i + 1, h3⟩)) ∧
    (l.length ≤ 1 → pairwise l = []) := by
  refine ⟨?_, ?_, ?_⟩
  · simp only [pairwise, List.length_zip, List.length_tail]
    omega
  · intro i h1 h2 h3
    simp only [pairwise] at h1 ⊢
    rw [List.get_zip]
    refine Prod.ext (by simp) ?_
    simp only
    rw [List.get_tail]
  · intro hl
    cases l with
    | nil => rfl
    | cons a t =>
        cases t with
        | nil => rfl
        | cons b t' => simp at hl

/-- Witness for C5 on `[1, 2, 3, 4]` and `[1]`. -/
theorem C5_pairwise_consecutive_pairs_witness :
    (pairwise [1, 2, 3, 4]).length = [1, 2, 3, 4].length - 1 ∧
    pairwise [(1 : Nat)] = [] ∧
    (pairwise [1, 2, 3, 4]).get ⟨2, by decide⟩ = (3, 4) :=
  ⟨(C5_pairwise_consecutive_pairs [1, 2, 3, 4]).1,
   (C5_pairwise_consecutive_pairs [(1 : Nat)]).2.2 (by decide),
   ((C5_pairwise_consecutive_pairs [1, 2, 3, 4]).2.1 2 (by decide) (by decide)
      (by decide)).trans (by decide)⟩
